import Mathlib

/-!
Verification of the GraphSentinel threat-intake pipeline (src/main.py).

The embedding models the core of the service:
* `ada_analyze_threat` — the classifier/scorer;
* `generate_voice_alert` — the ElevenLabs voice-synthesis adapter;
* `process_threat` — the `/api/threat` orchestrator;
* `get_voice_alert` — the `/api/voice/{threat_id}` audio retrieval;
* `get_threats` — the `/api/threats` recent-window query.

Machine-level conventions: Python `bytes` is `List Nat`; `dict` objects
(`alert.details`, `app.state.__dict__`) are association lists where an
assignment conses a fresh binding and lookup takes the most recent one;
the current wall-clock time is passed in explicitly as a civil (broken
down) timestamp; the single outbound HTTP call made by `httpx` is passed
in as an explicit outcome (an exception raised by the client, or a
response with a status code and a body).
-/

namespace GraphSentinel

/-- A civil timestamp at second granularity, as consumed by
`datetime.now().strftime('%Y%m%d%H%M%S')`. -/
structure DateTime where
  year : Nat
  month : Nat
  day : Nat
  hour : Nat
  minute : Nat
  second : Nat
  deriving Repr, DecidableEq

/-- Python class `ThreatAlert(BaseModel)` — incoming threat alert (src/main.py:41). -/
structure ThreatAlert where
  source : String := "Defender"
  alert_type : String := "BruteForce"
  severity : String := "High"
  details : List (String × String) := []
  deriving Repr, DecidableEq

/-- Python class `AdaAnalysis(BaseModel)` — analysis result (src/main.py:49).
`voice_message` is never set by the code and is omitted. -/
structure AdaAnalysis where
  threat_id : String
  summary : String
  reasoning : List String
  risk_score : Nat
  recommended_actions : List String
  auto_remediated : Bool
  deriving Repr, DecidableEq

/-- Python dict method `get(key, fallback)` on an association list. -/
def dictGet (d : List (String × String)) (key fallback : String) : String :=
  match d.find? (fun p => p.1 = key) with
  | some p => p.2
  | none => fallback

/-- Fixed-width big-endian base-10 digits of `n` (the digit list backing a
zero-padded `strftime` field of width `w`). -/
def natDigits : Nat → Nat → List Nat
  | 0, _ => []
  | w + 1, n => natDigits w (n / 10) ++ [n % 10]

/-- A fixed-width zero-padded decimal field, as `strftime` renders
`%Y` (width 4) and `%m %d %H %M %S` (width 2). -/
def padField (w n : Nat) : String :=
  String.mk ((natDigits w n).map Nat.digitChar)

/-- Python `datetime.strftime('%Y%m%d%H%M%S')` — the six zero-padded fields
concatenated (src/main.py:64). -/
def formatTimestamp (t : DateTime) : String :=
  padField 4 t.year ++ padField 2 t.month ++ padField 2 t.day ++
    padField 2 t.hour ++ padField 2 t.minute ++ padField 2 t.second

/-- Function `ada_analyze_threat` (src/main.py:60-105): builds the threat id, the
6-entry reasoning trace, the category-matched action list, and the
two-bucket risk score. `now` is the wall clock read at line 64. -/
def ada_analyze_threat (alert : ThreatAlert) (now : DateTime) : AdaAnalysis :=
  let threat_id := "THR-" ++ formatTimestamp now
  let reasoning := [
    "🔍 Detected " ++ alert.alert_type ++ " from " ++ alert.source,
    "📊 Analyzing patterns... " ++ dictGet alert.details "attempts" "multiple"
      ++ " attempts detected",
    "🌍 GeoIP lookup: Origins from " ++ dictGet alert.details "origins" "unknown regions",
    "🧠 Correlating with knowledge graph...",
    "⚡ Risk assessment: " ++ alert.severity ++ " severity confirmed",
    "🛡️ Checking available remediation options..."]
  let actions :=
    if alert.alert_type = "BruteForce" then [
      "Block source IPs in Conditional Access",
      "Enable MFA enforcement for targeted accounts",
      "Increase sign-in risk policy to High",
      "Notify security team via voice alert"]
    else if alert.alert_type = "ImpossibleTravel" then [
      "Require re-authentication",
      "Enable location-based Conditional Access",
      "Flag session for review"]
    else if alert.alert_type = "MalwareDetected" then [
      "Isolate affected device",
      "Revoke active sessions",
      "Trigger Defender scan",
      "Alert SOC team"]
    else []
  { threat_id := threat_id
    summary := alert.alert_type ++ " attack detected - Auto-remediation initiated"
    reasoning := reasoning
    risk_score := if alert.severity = "High" then 85 else 60
    recommended_actions := actions
    auto_remediated := true }

/-- The outcome of the single `httpx` POST to the synthesis service:
either the client raised (network failure or the 30 s timeout expired),
or a response arrived with a status code and a body. -/
inductive HttpOutcome where
  | exn : HttpOutcome
  | resp (status : Nat) (content : List Nat) : HttpOutcome
  deriving Repr, DecidableEq

/-- The voice script built by `generate_voice_alert` (src/main.py:115-130). -/
def buildVoiceMessage (analysis : AdaAnalysis) (alert : ThreatAlert) : String :=
  let origins := dictGet alert.details "origins" "mehreren Regionen"
  let attempts := dictGet alert.details "attempts" "tausende"
  "\n    Hi, hier ist Ada vom Security Operations Center.\n    \n    "
    ++ "Kurzes Update: In den letzten Stunden gab es " ++ attempts
    ++ " Login-Versuche \n    aus " ++ origins ++ ".\n    \n    "
    ++ "Ich habe mir erlaubt, die Conditional Access Policy vorübergehend zu verschärfen \n    "
    ++ "und MFA auf allen Admin-Accounts zu erzwingen.\n    \n    "
    ++ "Der betroffene Kollege ohne MFA wurde automatisch geschützt - \n    "
    ++ "er kann sich Montag bei mir bedanken.\n    \n    "
    ++ "Threat ID ist " ++ analysis.threat_id ++ ". Details im Dashboard.\n    \n    "
    ++ "Schönes Wochenende!\n    "

/-- Function `generate_voice_alert` (src/main.py:108-154). Returns the bytes the
Python coroutine returns (`.error ()` when the `httpx` call raises and the
exception escapes the function, which has no handler), paired with whether
a network request was issued. With no key configured it returns `b""`
before any network interaction. A response with status 200 yields its
body; any other status yields `b""`. -/
def generate_voice_alert (key : String) (analysis : AdaAnalysis) (alert : ThreatAlert)
    (outcome : HttpOutcome) : Except Unit (List Nat) × Bool :=
  let _message := buildVoiceMessage analysis alert
  if key = "" then (.ok [], false)
  else
    match outcome with
    | .exn => (.error (), true)
    | .resp status content =>
        (.ok (if status = 200 then content else []), true)

/-- One entry of `threat_log` (src/main.py:433-437). -/
structure IncidentRecord where
  timestamp : String
  alert : ThreatAlert
  analysis : AdaAnalysis
  deriving Repr, DecidableEq

/-- The mutable in-memory state: the `threat_log` list (src/main.py:37)
and the `app.state.__dict__` audio cache keyed by `voice_{threat_id}`
(src/main.py:448). -/
structure ServerState where
  threat_log : List IncidentRecord
  voice_store : List (String × List Nat)
  deriving Repr, DecidableEq

/-- The empty state at process start. -/
def initialState : ServerState := { threat_log := [], voice_store := [] }

/-- The JSON body returned by `process_threat`: the analysis fields plus
`voice_url` (src/main.py:450-453). -/
structure ThreatResponse where
  analysis : AdaAnalysis
  voice_url : Option String
  deriving Repr, DecidableEq

/-- Function `process_threat` (src/main.py:425-453), the `/api/threat` handler.
Inputs beyond the alert: the configured key, the server state, the wall
clock at line 64 (`now`) and its ISO rendering at line 434 (`nowIso`),
and the outcome of the synthesis HTTP call should one be made.
Output: the state after the handler (which reflects every mutation made
before an escaping exception), whether a network request was issued, and
either the response or `.error ()` when an exception escaped. -/
def process_threat (key : String) (st : ServerState) (alert : ThreatAlert)
    (now : DateTime) (nowIso : String) (outcome : HttpOutcome) :
    ServerState × Bool × Except Unit ThreatResponse :=
  let analysis := ada_analyze_threat alert now
  let st1 : ServerState :=
    { st with threat_log :=
        st.threat_log ++ [{ timestamp := nowIso, alert := alert, analysis := analysis }] }
  if key = "" then
    (st1, false, .ok { analysis := analysis, voice_url := none })
  else
    let gv := generate_voice_alert key analysis alert outcome
    match gv.1 with
    | .error e => (st1, gv.2, .error e)
    | .ok audio_bytes =>
        if audio_bytes.isEmpty then
          (st1, gv.2, .ok { analysis := analysis, voice_url := none })
        else
          ({ st1 with voice_store :=
              ("voice_" ++ analysis.threat_id, audio_bytes) :: st1.voice_store },
           gv.2,
           .ok { analysis := analysis,
                 voice_url := some ("/api/voice/" ++ analysis.threat_id) })

/-- What `/api/voice/{threat_id}` returns: a 404 "Voice not found" JSON
response, or the audio bytes with media type audio/mpeg. -/
inductive VoiceResult where
  | notFound : VoiceResult
  | audio (content : List Nat) : VoiceResult
  deriving Repr, DecidableEq

/-- Lookup in the `app.state.__dict__` cache (`dict.get`): most recent
binding wins. -/
def storeGet? (store : List (String × List Nat)) (key : String) : Option (List Nat) :=
  match store.find? (fun p => p.1 = key) with
  | some p => some p.2
  | none => none

/-- Function `get_voice_alert` (src/main.py:456-466): fetches
`app.state.__dict__.get("voice_" + threat_id)` and returns 404 whenever
the value is falsy — absent or empty bytes. -/
def get_voice_alert (st : ServerState) (threat_id : String) : VoiceResult :=
  let audio_key := "voice_" ++ threat_id
  match storeGet? st.voice_store audio_key with
  | none => .notFound
  | some audio_bytes =>
      if audio_bytes.isEmpty then .notFound else .audio audio_bytes

/-- Function `get_threats` (src/main.py:469-472): the slice `threat_log[-50:]`. -/
def get_threats (st : ServerState) : List IncidentRecord :=
  st.threat_log.drop (st.threat_log.length - 50)

/-- Bounds under which each `strftime` field fits its zero-padded width
(every real wall-clock reading satisfies them: months and days are two
digits, years of the current era are four). -/
abbrev TimeBounded (t : DateTime) : Prop :=
  t.year < 10000 ∧ t.month < 100 ∧ t.day < 100 ∧ t.hour < 100 ∧
    t.minute < 100 ∧ t.second < 100

/-- One full input to a `process_threat` call: the alert, the wall clock
read inside `ada_analyze_threat`, the ISO timestamp written to the log,
and the outcome of the synthesis HTTP call. -/
structure PipelineInput where
  alert : ThreatAlert
  now : DateTime
  nowIso : String
  outcome : HttpOutcome
  deriving Repr, DecidableEq

/-- The incident record `process_threat` logs for a given input. -/
def incidentOf (inp : PipelineInput) : IncidentRecord :=
  { timestamp := inp.nowIso, alert := inp.alert,
    analysis := ada_analyze_threat inp.alert inp.now }

/-- A sequence of `process_threat` calls run back to back, threading the
server state. -/
def runSequence (key : String) (st : ServerState) : List PipelineInput → ServerState
  | [] => st
  | inp :: rest =>
      runSequence key (process_threat key st inp.alert inp.now inp.nowIso inp.outcome).1 rest

/-- A fixed sample alert (the dashboard's brute-force simulation payload). -/
def sampleAlert : ThreatAlert :=
  { source := "Microsoft Defender", alert_type := "BruteForce", severity := "High",
    details := [("attempts", "15.000"), ("origins", "Korea, China und Russland")] }

/-- A fixed sample wall-clock reading. -/
def sampleTime : DateTime :=
  { year := 2026, month := 10, day := 12, hour := 9, minute := 30, second := 0 }

/-- A second sample wall-clock reading, one second after `sampleTime`. -/
def sampleTime2 : DateTime :=
  { year := 2026, month := 10, day := 12, hour := 9, minute := 30, second := 1 }

/-- A fixed sample pipeline input with no synthesis key in play. -/
def sampleInput : PipelineInput :=
  { alert := sampleAlert, now := sampleTime, nowIso := "2026-10-12T09:30:00+00:00",
    outcome := .exn }

/-- A server state whose audio cache holds one binding mapping an id to
the empty byte string. -/
def emptyBlobState : ServerState :=
  { threat_log := [], voice_store := [("voice_THR-X", [])] }

/-- One `process_threat` call with no key configured, as a state
transformer (used to iterate the logging step). -/
def demoStep (st : ServerState) : ServerState :=
  (process_threat "" st sampleAlert sampleTime "2026-10-12T09:30:00+00:00" .exn).1

/-! ### Helper lemmas -/

theorem natDigits_length (w n : Nat) : (natDigits w n).length = w := by
  induction w generalizing n with
  | zero => rfl
  | succ w ih => simp [natDigits, ih]

theorem natDigits_lt_ten (w n : Nat) : ∀ d ∈ natDigits w n, d < 10 := by
  induction w generalizing n with
  | zero => simp [natDigits]
  | succ w ih =>
      intro d hd
      simp only [natDigits, List.mem_append, List.mem_singleton] at hd
      rcases hd with h | h
      · exact ih _ _ h
      · subst h; exact Nat.mod_lt _ (by norm_num)

theorem natDigits_inj {w m n : Nat} (hm : m < 10 ^ w) (hn : n < 10 ^ w)
    (h : natDigits w m = natDigits w n) : m = n := by
  induction w generalizing m n with
  | zero => simp only [pow_zero, Nat.lt_one_iff] at hm hn; omega
  | succ w ih =>
      simp only [natDigits] at h
      have hlen : (natDigits w (m / 10)).length = (natDigits w (n / 10)).length := by
        simp [natDigits_length]
      obtain ⟨h1, h2⟩ := List.append_inj h hlen
      have hm' : m / 10 < 10 ^ w := by
        apply Nat.div_lt_of_lt_mul
        rw [pow_succ] at hm; omega
      have hn' : n / 10 < 10 ^ w := by
        apply Nat.div_lt_of_lt_mul
        rw [pow_succ] at hn; omega
      have hdiv := ih hm' hn' h1
      have hmod : m % 10 = n % 10 := by simpa using h2
      omega

theorem digitChar_injOn : ∀ a < 10, ∀ b < 10, Nat.digitChar a = Nat.digitChar b → a = b := by
  decide

theorem map_digitChar_inj : ∀ {l1 l2 : List Nat}, (∀ d ∈ l1, d < 10) → (∀ d ∈ l2, d < 10) →
    l1.map Nat.digitChar = l2.map Nat.digitChar → l1 = l2 := by
  intro l1
  induction l1 with
  | nil => intro l2 _ _ h; cases l2 <;> simp_all
  | cons a l ih =>
      intro l2 h1 h2 h
      cases l2 with
      | nil => simp at h
      | cons b l2' =>
          simp only [List.map_cons, List.cons.injEq] at h
          have ha : a = b :=
            digitChar_injOn a (h1 a (by simp)) b (h2 b (by simp)) h.1
          have hl : l = l2' := ih (fun d hd => h1 d (by simp [hd]))
            (fun d hd => h2 d (by simp [hd])) h.2
          simp [ha, hl]

theorem padField_data (w n : Nat) :
    (padField w n).data = (natDigits w n).map Nat.digitChar := rfl

theorem padField_data_length (w n : Nat) : (padField w n).data.length = w := by
  simp [padField_data, natDigits_length]

theorem padField_length (w n : Nat) : (padField w n).length = w := by
  show ((natDigits w n).map Nat.digitChar).length = w
  simp [natDigits_length]

theorem padField_data_inj {w m n : Nat} (hm : m < 10 ^ w) (hn : n < 10 ^ w)
    (h : (padField w m).data = (padField w n).data) : m = n :=
  natDigits_inj hm hn
    (map_digitChar_inj (natDigits_lt_ten _ _) (natDigits_lt_ten _ _)
      (by simpa [padField_data] using h))

theorem padField4_inj {m n : Nat} (hm : m < 10000) (hn : n < 10000)
    (h : (padField 4 m).data = (padField 4 n).data) : m = n := by
  refine padField_data_inj (w := 4) ?_ ?_ h <;> · norm_num; omega

theorem padField2_inj {m n : Nat} (hm : m < 100) (hn : n < 100)
    (h : (padField 2 m).data = (padField 2 n).data) : m = n := by
  refine padField_data_inj (w := 2) ?_ ?_ h <;> · norm_num; omega

theorem formatTimestamp_inj {t1 t2 : DateTime} (h1 : TimeBounded t1) (h2 : TimeBounded t2)
    (h : formatTimestamp t1 = formatTimestamp t2) : t1 = t2 := by
  obtain ⟨hy1, hmo1, hd1, hh1, hmi1, hs1⟩ := h1
  obtain ⟨hy2, hmo2, hd2, hh2, hmi2, hs2⟩ := h2
  have hd := congrArg String.data h
  simp only [formatTimestamp, String.data_append, List.append_assoc] at hd
  obtain ⟨hY, hd⟩ := List.append_inj hd (by simp [padField_data_length, padField_length])
  obtain ⟨hMo, hd⟩ := List.append_inj hd (by simp [padField_data_length, padField_length])
  obtain ⟨hD, hd⟩ := List.append_inj hd (by simp [padField_data_length, padField_length])
  obtain ⟨hH, hMiS⟩ := List.append_inj hd (by simp [padField_data_length, padField_length])
  obtain ⟨hMi, hS⟩ := List.append_inj hMiS (by simp [padField_data_length, padField_length])
  cases t1; cases t2
  simp only at hy1 hmo1 hd1 hh1 hmi1 hs1 hy2 hmo2 hd2 hh2 hmi2 hs2 hY hMo hD hH hMi hS
  simp only [DateTime.mk.injEq]
  exact ⟨padField4_inj hy1 hy2 hY, padField2_inj hmo1 hmo2 hMo,
    padField2_inj hd1 hd2 hD, padField2_inj hh1 hh2 hH,
    padField2_inj hmi1 hmi2 hMi, padField2_inj hs1 hs2 hS⟩

theorem string_append_ne_empty_of_right (s t : String) (ht : t.length ≠ 0) :
    s ++ t ≠ "" := by
  intro h
  have := congrArg String.length h
  simp only [String.length_append] at this
  have h0 : ("" : String).length = 0 := rfl
  omega

theorem process_threat_log (key : String) (st : ServerState) (alert : ThreatAlert)
    (now : DateTime) (nowIso : String) (outcome : HttpOutcome) :
    (process_threat key st alert now nowIso outcome).1.threat_log =
      st.threat_log ++
        [{ timestamp := nowIso, alert := alert,
           analysis := ada_analyze_threat alert now }] := by
  unfold process_threat generate_voice_alert
  dsimp only
  split
  · rfl
  · cases outcome with
    | exn => rfl
    | resp status content =>
        dsimp only
        split
        · split <;> rfl
        · rfl

theorem process_threat_log_length (key : String) (st : ServerState) (alert : ThreatAlert)
    (now : DateTime) (nowIso : String) (outcome : HttpOutcome) :
    (process_threat key st alert now nowIso outcome).1.threat_log.length =
      st.threat_log.length + 1 := by
  rw [process_threat_log]; simp

theorem demoStep_iterate_length (n : Nat) (st : ServerState) :
    (demoStep^[n] st).threat_log.length = st.threat_log.length + n := by
  induction n generalizing st with
  | zero => simp
  | succ n ih =>
      rw [Function.iterate_succ_apply, ih, demoStep, process_threat_log_length]
      omega

theorem runSequence_log (key : String) (st : ServerState) (inputs : List PipelineInput) :
    (runSequence key st inputs).threat_log =
      st.threat_log ++ inputs.map incidentOf := by
  induction inputs generalizing st with
  | nil => simp [runSequence]
  | cons inp rest ih =>
      rw [runSequence, ih, process_threat_log]
      simp [incidentOf]

theorem string_append_ne_empty_of_left (s t : String) (hs : s.length ≠ 0) :
    s ++ t ≠ "" := by
  intro h
  have := congrArg String.length h
  simp only [String.length_append] at this
  have h0 : ("" : String).length = 0 := rfl
  omega

theorem process_threat_voice_store (key : String) (st : ServerState) (alert : ThreatAlert)
    (now : DateTime) (nowIso : String) (outcome : HttpOutcome) :
    (process_threat key st alert now nowIso outcome).1.voice_store = st.voice_store ∨
    ∃ b : List Nat, b ≠ [] ∧
      (process_threat key st alert now nowIso outcome).1.voice_store =
        ("voice_" ++ (ada_analyze_threat alert now).threat_id, b) :: st.voice_store := by
  unfold process_threat generate_voice_alert
  dsimp only
  split
  · left; rfl
  · cases outcome with
    | exn => left; rfl
    | resp status content =>
        dsimp only
        split
        · split
          next hco => left; rfl
          next hco =>
              right
              exact ⟨content, fun hc => hco (by simp [hc]), rfl⟩
        · left; rfl

/-! ### Claim theorems -/

/-- C3: for every normalized alert, the classifier `ada_analyze_threat`
totally succeeds, returning a risk score of 85 exactly when severity is
"High" and 60 for every other severity (so the score is always in
the set of 60 and 85), a reasoning trace of exactly 6 entries, and a
nonempty threat id and a nonempty summary. -/
theorem C3_classify_total (alert : ThreatAlert) (now : DateTime) :
    ((ada_analyze_threat alert now).risk_score = 85 ∨
      (ada_analyze_threat alert now).risk_score = 60) ∧
    (alert.severity = "High" → (ada_analyze_threat alert now).risk_score = 85) ∧
    (alert.severity ≠ "High" → (ada_analyze_threat alert now).risk_score = 60) ∧
    (ada_analyze_threat alert now).reasoning.length = 6 ∧
    (ada_analyze_threat alert now).threat_id ≠ "" ∧
    (ada_analyze_threat alert now).summary ≠ "" := by
  refine ⟨?_, ?_, ?_, ?_, ?_, ?_⟩
  · by_cases h : alert.severity = "High" <;> simp [ada_analyze_threat, h]
  · intro h; simp [ada_analyze_threat, h]
  · intro h; simp [ada_analyze_threat, h]
  · simp [ada_analyze_threat]
  · show "THR-" ++ formatTimestamp now ≠ ""
    exact string_append_ne_empty_of_left _ _ (by decide)
  · show alert.alert_type ++ " attack detected - Auto-remediation initiated" ≠ ""
    exact string_append_ne_empty_of_right _ _ (by decide)

/-- C3 witness: the theorem instantiated at the sample brute-force alert,
whose severity is "High". -/
theorem C3_classify_total_witness :
    (ada_analyze_threat sampleAlert sampleTime).risk_score = 85 ∧
    (ada_analyze_threat sampleAlert sampleTime).reasoning.length = 6 ∧
    (ada_analyze_threat sampleAlert sampleTime).threat_id ≠ "" ∧
    (ada_analyze_threat sampleAlert sampleTime).summary ≠ "" :=
  ⟨(C3_classify_total sampleAlert sampleTime).2.1 rfl,
    (C3_classify_total sampleAlert sampleTime).2.2.2.1,
    (C3_classify_total sampleAlert sampleTime).2.2.2.2.1,
    (C3_classify_total sampleAlert sampleTime).2.2.2.2.2⟩

/-- C4: `ada_analyze_threat` selects the recommended actions by exact
match on the alert category — the fixed 4-item list for "BruteForce", the
fixed 3-item list for "ImpossibleTravel", the fixed 4-item list for
"MalwareDetected", and the empty list for any other category — with
`auto_remediated` true and no failure even for unrecognized categories. -/
theorem C4_actions_by_category (alert : ThreatAlert) (now : DateTime) :
    (alert.alert_type = "BruteForce" →
      (ada_analyze_threat alert now).recommended_actions = [
        "Block source IPs in Conditional Access",
        "Enable MFA enforcement for targeted accounts",
        "Increase sign-in risk policy to High",
        "Notify security team via voice alert"]) ∧
    (alert.alert_type = "ImpossibleTravel" →
      (ada_analyze_threat alert now).recommended_actions = [
        "Require re-authentication",
        "Enable location-based Conditional Access",
        "Flag session for review"]) ∧
    (alert.alert_type = "MalwareDetected" →
      (ada_analyze_threat alert now).recommended_actions = [
        "Isolate affected device",
        "Revoke active sessions",
        "Trigger Defender scan",
        "Alert SOC team"]) ∧
    (alert.alert_type ≠ "BruteForce" → alert.alert_type ≠ "ImpossibleTravel" →
      alert.alert_type ≠ "MalwareDetected" →
      (ada_analyze_threat alert now).recommended_actions = []) ∧
    (ada_analyze_threat alert now).auto_remediated = true := by
  refine ⟨?_, ?_, ?_, ?_, ?_⟩
  · intro h; simp [ada_analyze_threat, h]
  · intro h; simp [ada_analyze_threat, h]
  · intro h; simp [ada_analyze_threat, h]
  · intro h1 h2 h3; simp [ada_analyze_threat, h1, h2, h3]
  · simp [ada_analyze_threat]

/-- C4 witness: instantiations at a brute-force alert and at an alert
with the unrecognized category "PortScan". -/
theorem C4_actions_by_category_witness :
    (ada_analyze_threat sampleAlert sampleTime).recommended_actions = [
        "Block source IPs in Conditional Access",
        "Enable MFA enforcement for targeted accounts",
        "Increase sign-in risk policy to High",
        "Notify security team via voice alert"] ∧
    (ada_analyze_threat { sampleAlert with alert_type := "PortScan" }
        sampleTime).recommended_actions = [] ∧
    (ada_analyze_threat { sampleAlert with alert_type := "PortScan" }
        sampleTime).auto_remediated = true :=
  ⟨(C4_actions_by_category sampleAlert sampleTime).1 rfl,
    (C4_actions_by_category _ sampleTime).2.2.2.1 (by decide) (by decide) (by decide),
    (C4_actions_by_category { sampleAlert with alert_type := "PortScan" } sampleTime).2.2.2.2⟩

/-- C6: when no synthesis credential is configured (empty key), the
pipeline returns an absent voice url and never issues a network request;
the adapter itself also reports no network interaction. -/
theorem C6_no_key_no_network (st : ServerState) (alert : ThreatAlert) (now : DateTime)
    (nowIso : String) (outcome : HttpOutcome) :
    (process_threat "" st alert now nowIso outcome).2.1 = false ∧
    (process_threat "" st alert now nowIso outcome).2.2 =
      .ok { analysis := ada_analyze_threat alert now, voice_url := none } ∧
    (generate_voice_alert "" (ada_analyze_threat alert now) alert outcome).2 = false := by
  refine ⟨rfl, rfl, rfl⟩

/-- C7: retrieving audio for a threat id for which nothing was ever
stored in the audio cache yields the not-found condition, not an audio
payload and not a server error. -/
theorem C7_audio_not_found (st : ServerState) (threat_id : String)
    (h : storeGet? st.voice_store ("voice_" ++ threat_id) = none) :
    get_voice_alert st threat_id = .notFound := by
  simp [get_voice_alert, h]

/-- C7 witness: at the empty initial state, any id is absent. -/
theorem C7_audio_not_found_witness :
    storeGet? initialState.voice_store ("voice_" ++ "THR-20261012093000") = none ∧
    get_voice_alert initialState "THR-20261012093000" = .notFound :=
  ⟨rfl, C7_audio_not_found initialState "THR-20261012093000" rfl⟩

/-- C1 counterexample: the stored log is not capped at insertion time —
after 51 calls of the logging step of `process_threat` starting from the
empty state, `threat_log` holds 51 records, exceeding 50. -/
theorem C1_counterexample :
    ¬ ((demoStep^[51] initialState).threat_log.length ≤ 50) := by
  rw [demoStep_iterate_length]
  decide

/-- C1 amended: the append performed by `process_threat` retains every
previous record and adds the new one at the tail (arrival order, no cap,
nothing dropped at insertion time); the 50-record bound holds only for the
recent-window query `get_threats`, which returns at most 50 records. -/
theorem C1_amended_unbounded_log (key : String) (st : ServerState) (alert : ThreatAlert)
    (now : DateTime) (nowIso : String) (outcome : HttpOutcome) :
    (process_threat key st alert now nowIso outcome).1.threat_log =
      st.threat_log ++
        [{ timestamp := nowIso, alert := alert,
           analysis := ada_analyze_threat alert now }] ∧
    (get_threats (process_threat key st alert now nowIso outcome).1).length ≤ 50 := by
  refine ⟨process_threat_log key st alert now nowIso outcome, ?_⟩
  simp only [get_threats, List.length_drop]
  omega

/-- C2 counterexample: with a credential configured, a raised network
error or timeout in the synthesis call is not swallowed — the adapter
propagates it, and so does `process_threat`. -/
theorem C2_counterexample :
    (generate_voice_alert "sk-test" (ada_analyze_threat sampleAlert sampleTime)
        sampleAlert .exn).1 = .error () ∧
    (process_threat "sk-test" initialState sampleAlert sampleTime
        "2026-10-12T09:30:00+00:00" .exn).2.2 = .error () :=
  ⟨rfl, rfl⟩

/-- C2 amended: the adapter swallows a non-2xx response status, returning
empty audio, and `process_threat` then answers with an absent voice url;
but a network error or timeout raised by the HTTP client is not caught —
it propagates out of `generate_voice_alert` and out of `process_threat`. -/
theorem C2_amended_synthesis_failures (key : String) (st : ServerState)
    (alert : ThreatAlert) (now : DateTime) (nowIso : String) (status : Nat)
    (content : List Nat) (hkey : key ≠ "") (hstatus : status ≠ 200) :
    (generate_voice_alert key (ada_analyze_threat alert now) alert
        (.resp status content)).1 = .ok [] ∧
    (process_threat key st alert now nowIso (.resp status content)).2.2 =
      .ok { analysis := ada_analyze_threat alert now, voice_url := none } ∧
    (generate_voice_alert key (ada_analyze_threat alert now) alert .exn).1 =
      .error () ∧
    (process_threat key st alert now nowIso .exn).2.2 = .error () := by
  refine ⟨?_, ?_, ?_, ?_⟩
  · simp [generate_voice_alert, hkey, hstatus]
  · simp [process_threat, generate_voice_alert, hkey, hstatus]
  · simp [generate_voice_alert, hkey]
  · simp [process_threat, generate_voice_alert, hkey]

/-- C2 amended witness: a configured key with a 500 response and with a
raised exception. -/
theorem C2_amended_synthesis_failures_witness :
    ("sk-test" ≠ "") ∧ ((500 : Nat) ≠ 200) ∧
    ((generate_voice_alert "sk-test" (ada_analyze_threat sampleAlert sampleTime)
        sampleAlert (.resp 500 [1, 2, 3])).1 = .ok [] ∧
     (process_threat "sk-test" initialState sampleAlert sampleTime
        "2026-10-12T09:30:00+00:00" (.resp 500 [1, 2, 3])).2.2 =
        .ok { analysis := ada_analyze_threat sampleAlert sampleTime, voice_url := none } ∧
     (generate_voice_alert "sk-test" (ada_analyze_threat sampleAlert sampleTime)
        sampleAlert .exn).1 = .error () ∧
     (process_threat "sk-test" initialState sampleAlert sampleTime
        "2026-10-12T09:30:00+00:00" .exn).2.2 = .error ()) :=
  ⟨by decide, by decide,
    C2_amended_synthesis_failures "sk-test" initialState sampleAlert sampleTime
      "2026-10-12T09:30:00+00:00" 500 [1, 2, 3] (by decide) (by decide)⟩

/-- C5: for every sequence of incidents processed from the empty state,
the recent-window query returns the up-to-50 most recent records,
oldest-first: it is the arrival-order log with exactly its oldest
`length - 50` records removed, so it holds min(length, 50) records and
never more than 50; in particular a sequence of 60 yields exactly the
records of the 50 most recent inputs, with the 10 oldest absent. -/
theorem C5_recent_window (key : String) (inputs : List PipelineInput) :
    get_threats (runSequence key initialState inputs) =
      (inputs.map incidentOf).drop (inputs.length - 50) ∧
    (get_threats (runSequence key initialState inputs)).length =
      inputs.length - (inputs.length - 50) ∧
    (get_threats (runSequence key initialState inputs)).length ≤ 50 ∧
    (inputs.length = 60 →
      get_threats (runSequence key initialState inputs) =
        (inputs.map incidentOf).drop 10 ∧
      (get_threats (runSequence key initialState inputs)).length = 50) := by
  have hlog := runSequence_log key initialState inputs
  have h1 : get_threats (runSequence key initialState inputs) =
      (inputs.map incidentOf).drop (inputs.length - 50) := by
    rw [get_threats, hlog]
    simp [initialState]
  refine ⟨h1, ?_, ?_, ?_⟩
  · rw [h1]; simp
  · rw [h1]; simp; omega
  · intro h60
    refine ⟨?_, ?_⟩
    · rw [h1, h60]
    · rw [h1]; simp [h60]

/-- C5 witness: a concrete sequence of 60 identical inputs, discharging
the length-60 clause. -/
theorem C5_recent_window_witness :
    (List.replicate 60 sampleInput).length = 60 ∧
    (get_threats (runSequence "" initialState (List.replicate 60 sampleInput)) =
      ((List.replicate 60 sampleInput).map incidentOf).drop 10 ∧
     (get_threats (runSequence "" initialState (List.replicate 60 sampleInput))).length = 50) :=
  ⟨by simp, (C5_recent_window "" (List.replicate 60 sampleInput)).2.2.2 (by simp)⟩

/-- C8: two analyses computed at distinct second-level timestamps (in the
ranges every real wall clock satisfies) carry distinct threat ids, for any
alert content — no deduplication of identical alerts takes place. -/
theorem C8_distinct_ids (alert : ThreatAlert) (t1 t2 : DateTime)
    (h1 : TimeBounded t1) (h2 : TimeBounded t2) (hne : t1 ≠ t2) :
    (ada_analyze_threat alert t1).threat_id ≠
      (ada_analyze_threat alert t2).threat_id := by
  intro h
  apply hne
  apply formatTimestamp_inj h1 h2
  have hid : ("THR-" ++ formatTimestamp t1) = ("THR-" ++ formatTimestamp t2) := h
  have hdata := congrArg String.data hid
  simp only [String.data_append] at hdata
  exact String.ext (List.append_cancel_left hdata)

/-- C8 witness: the same alert one second apart gives two distinct ids. -/
theorem C8_distinct_ids_witness :
    TimeBounded sampleTime ∧ TimeBounded sampleTime2 ∧ sampleTime ≠ sampleTime2 ∧
    (ada_analyze_threat sampleAlert sampleTime).threat_id ≠
      (ada_analyze_threat sampleAlert sampleTime2).threat_id :=
  ⟨by decide, by decide, by decide,
    C8_distinct_ids sampleAlert sampleTime sampleTime2 (by decide) (by decide) (by decide)⟩

/-- C9: the incident record is appended to the log before synthesis is
attempted, so when the synthesis call raises (here: with a credential
configured and the HTTP client raising), `process_threat` propagates the
error yet the record is already in the log — at the tail, in arrival
order — and visible in the recent window; the append is not rolled back. -/
theorem C9_append_survives_synthesis_failure (key : String) (st : ServerState)
    (alert : ThreatAlert) (now : DateTime) (nowIso : String) (hkey : key ≠ "") :
    (process_threat key st alert now nowIso .exn).2.2 = .error () ∧
    (process_threat key st alert now nowIso .exn).1.threat_log =
      st.threat_log ++
        [{ timestamp := nowIso, alert := alert,
           analysis := ada_analyze_threat alert now }] ∧
    ({ timestamp := nowIso, alert := alert,
       analysis := ada_analyze_threat alert now } : IncidentRecord) ∈
      get_threats (process_threat key st alert now nowIso .exn).1 := by
  refine ⟨?_, process_threat_log key st alert now nowIso .exn, ?_⟩
  · simp [process_threat, generate_voice_alert, hkey]
  · rw [get_threats, process_threat_log]
    simp only [List.length_append, List.length_singleton]
    rw [List.drop_append_of_le_length (by omega)]
    simp

/-- C9 witness: a configured key, the empty state, and a raised synthesis
exception. -/
theorem C9_append_survives_synthesis_failure_witness :
    ("sk-test" ≠ "") ∧
    ((process_threat "sk-test" initialState sampleAlert sampleTime
        "2026-10-12T09:30:00+00:00" .exn).2.2 = .error () ∧
     (process_threat "sk-test" initialState sampleAlert sampleTime
        "2026-10-12T09:30:00+00:00" .exn).1.threat_log =
       initialState.threat_log ++
         [{ timestamp := "2026-10-12T09:30:00+00:00", alert := sampleAlert,
            analysis := ada_analyze_threat sampleAlert sampleTime }] ∧
     ({ timestamp := "2026-10-12T09:30:00+00:00", alert := sampleAlert,
        analysis := ada_analyze_threat sampleAlert sampleTime } : IncidentRecord) ∈
       get_threats (process_threat "sk-test" initialState sampleAlert sampleTime
        "2026-10-12T09:30:00+00:00" .exn).1) :=
  ⟨by decide,
    C9_append_survives_synthesis_failure "sk-test" initialState sampleAlert sampleTime
      "2026-10-12T09:30:00+00:00" (by decide)⟩

/-- C10: an empty stored audio blob is indistinguishable from an absent
one — the retrieval checks truthiness, so an id whose stored blob is the
empty byte string yields not-found; and `process_threat` never stores an
empty blob: every binding in the cache after a call was either already
there or carries nonempty bytes. -/
theorem C10_empty_blob_is_absent :
    (∀ (st : ServerState) (threat_id : String),
        storeGet? st.voice_store ("voice_" ++ threat_id) = some [] →
        get_voice_alert st threat_id = .notFound) ∧
    (∀ (key : String) (st : ServerState) (alert : ThreatAlert) (now : DateTime)
        (nowIso : String) (outcome : HttpOutcome) (k : String) (b : List Nat),
        (k, b) ∈ (process_threat key st alert now nowIso outcome).1.voice_store →
        (k, b) ∈ st.voice_store ∨ b ≠ []) := by
  constructor
  · intro st threat_id h
    simp [get_voice_alert, h]
  · intro key st alert now nowIso outcome k b hmem
    rcases process_threat_voice_store key st alert now nowIso outcome with heq | ⟨b0, hb0, heq⟩
    · rw [heq] at hmem; exact Or.inl hmem
    · rw [heq] at hmem
      rcases List.mem_cons.mp hmem with hhd | htl
      · right
        have : b = b0 := congrArg Prod.snd hhd
        rw [this]; exact hb0
      · exact Or.inl htl

/-- C10 witness: a state whose cache maps an id to the empty byte string
is answered with not-found. -/
theorem C10_empty_blob_is_absent_witness :
    storeGet? emptyBlobState.voice_store ("voice_" ++ "THR-X") = some [] ∧
    get_voice_alert emptyBlobState "THR-X" = .notFound :=
  ⟨by decide, C10_empty_blob_is_absent.1 emptyBlobState "THR-X" (by decide)⟩

end GraphSentinel
